import Mathlib

/-!
A shallow embedding, in Lean 4, of the core logic of the autoadvisor-mvp
backend (src/backend/extract_listing.py and src/backend/advisor.py), together
with theorems settling the specification claims about that logic.

Modelling conventions:
* Python strings are Lean `String`s, usually manipulated as `List Char`;
  `str.strip`, `str.lower` and the regex class `\s` are modelled over the
  ASCII whitespace/letter ranges the data actually uses.
* Python `None` is `Option.none`; Python numbers are `Int` for ints and exact
  rationals (`Rat`) for finite floats, with the non-finite floats NaN and
  ±Infinity kept as separate constructors because `int()` raises on them.
* Fallible code returns `Except`, with the error payload carrying exactly the
  data the corresponding Python exception carries.
-/

namespace AutoAdvisor

/-- ASCII whitespace: the characters stripped by Python `str.strip()` and
matched by the regex class `\s` on the ASCII range
(space, tab, newline, carriage return, vertical tab, form feed). -/
def isPyWs (c : Char) : Bool :=
  c = ' ' || c = '\t' || c = '\n' || c = '\r' || c = '\x0b' || c = '\x0c'

/-- Python `str.strip()`: drop leading and trailing whitespace. -/
def pyStrip (cs : List Char) : List Char :=
  ((cs.dropWhile isPyWs).reverse.dropWhile isPyWs).reverse

/-- `pyStrip` packaged on `String`. -/
def stripStr (s : String) : String :=
  String.mk (pyStrip s.toList)

/-- Python `str.lower()` on the ASCII range. -/
def pyLower (cs : List Char) : List Char :=
  cs.map Char.toLower

/-- advisor._normalize: `(s or "").strip().lower()`, where a Python `None`
argument is mapped to the empty string by `s or ""`. -/
def pyNormalize (s : Option String) : String :=
  String.mk (pyLower (pyStrip (s.getD "").toList))

/-- Value of a list of ASCII digits read in base 10. -/
def digitsToNat (cs : List Char) : Nat :=
  cs.foldl (fun a c => 10 * a + (c.toNat - 48)) 0

/-!
## NumericNormalizer: extract_listing._coerce_number
-/

/-- A Python value arriving at `_coerce_number`: `None`, an int, a float
(finite floats denote exact rationals; NaN and ±Infinity are separate because
`int()` raises on them), or a string. -/
inductive CoerceInput where
  | vnone
  | vint (i : Int)
  | vfloat (q : Rat)
  | vnan
  | vinf (neg : Bool)
  | vstr (s : String)

/-- Truncation toward zero: what Python `int()` returns on a finite float
(every finite float denotes an exact rational). -/
def ratTrunc (q : Rat) : Int :=
  q.num.tdiv q.den

/-- The character class of the first substitution in `_coerce_number`:
`re.sub(r"[€\s,kmKM]", "", s)` (currency sign, whitespace, comma, and the
letters of the distance unit in both cases). -/
def isCurrencyNoise (c : Char) : Bool :=
  c = '€' || isPyWs c || c = ',' || c = 'k' || c = 'm' || c = 'K' || c = 'M'

/-- extract_listing._coerce_number. `None` propagates as absent; ints pass
through `int(x)` unchanged; finite floats truncate toward zero; NaN and
±Infinity make `int(x)` raise (ValueError / OverflowError), modelled as
`Except.error`; strings lose the `[€\s,kmKM]` characters, then every remaining
non-digit, and the surviving digit string is read in base 10 (absent if no
digit survives, since `"".isdigit()` is false). -/
def coerce_number : CoerceInput → Except String (Option Int)
  | .vnone => .ok none
  | .vint i => .ok (some i)
  | .vfloat q => .ok (some (ratTrunc q))
  | .vnan => .error "cannot convert float NaN to integer"
  | .vinf _ => .error "cannot convert float infinity to integer"
  | .vstr s =>
      let s1 := s.toList.filter (fun c => !isCurrencyNoise c)
      let s2 := s1.filter Char.isDigit
      .ok (if s2.isEmpty then none else some (Int.ofNat (digitsToNat s2)))

/-!
## YearRangeParser: advisor._parse_year_range
-/

/-- The digit tail of a Python `int()` literal after its first digit: digits
with single underscores allowed only between digits. Returns the digits with
underscores removed, or `none` if malformed. -/
def intDigitsTail : List Char → Option (List Char)
  | [] => some []
  | '_' :: [] => none
  | '_' :: c :: rest =>
      if c.isDigit then (intDigitsTail rest).map (c :: ·) else none
  | c :: rest =>
      if c.isDigit then (intDigitsTail rest).map (c :: ·) else none

/-- Python `int(s)` on a string: optional surrounding whitespace, optional
sign, then a nonempty digit sequence with underscore group separators.
`none` models the ValueError on malformed input. -/
def pyIntOfString (s : String) : Option Int :=
  let core : List Char → Option Int := fun cs =>
    match cs with
    | [] => none
    | c :: rest =>
        if c.isDigit then
          (intDigitsTail rest).map (fun ds => Int.ofNat (digitsToNat (c :: ds)))
        else none
  match pyStrip s.toList with
  | '+' :: rest => core rest
  | '-' :: rest => (core rest).map Int.neg
  | cs => core cs

/-- Read exactly four ASCII digits, returning their value and the remainder. -/
def takeDigits4 : List Char → Option (Int × List Char)
  | c1 :: c2 :: c3 :: c4 :: rest =>
      if c1.isDigit && c2.isDigit && c3.isDigit && c4.isDigit then
        some (Int.ofNat (digitsToNat [c1, c2, c3, c4]), rest)
      else none
  | _ => none

/-- The regex `^\s*(\d{4})\s*[-–]\s*(\d{4})\s*$` of `_parse_year_range`:
optional whitespace, exactly four digits, optional whitespace, a hyphen or
en-dash, optional whitespace, exactly four digits, then only whitespace. -/
def yearShape (cs : List Char) : Option (Int × Int) :=
  match takeDigits4 (cs.dropWhile isPyWs) with
  | none => none
  | some (a, rest) =>
      match rest.dropWhile isPyWs with
      | [] => none
      | c :: rest2 =>
          if c = '-' || c = '–' then
            match takeDigits4 (rest2.dropWhile isPyWs) with
            | none => none
            | some (b, rest3) =>
                if (rest3.dropWhile isPyWs).isEmpty then some (a, b) else none
          else none

/-- advisor._parse_year_range: empty string (Python falsy) gives no bounds;
an exact `YYYY-YYYY` shape gives the two integers in order; otherwise
`int(r.strip())` is attempted and a success gives a degenerate range; any
failure is caught by the bare `except:` and gives no bounds. -/
def parse_year_range (r : String) : Option Int × Option Int :=
  if r = "" then (none, none)
  else
    match yearShape r.toList with
    | some (a, b) => (some a, some b)
    | none =>
        match pyIntOfString (stripStr r) with
        | some y => (some y, some y)
        | none => (none, none)

/-!
## KnowledgeBaseMatcher: advisor.load_kb_for_listing

The CSV file is modelled as the list of its rows; each row supplies the five
columns as strings (csv.DictReader yields one string per named column).
The listing dictionary is modelled by the three fields the matcher reads:
`brand` and `model` as optional strings, and `year`, which is `some`
exactly when the Python value is an int (`isinstance(year, int)`).
-/

structure Listing where
  brand : Option String
  model : Option String
  year : Option Int

structure KBRow where
  brand : String
  model : String
  year_range : String
  topic : String
  text : String

/-- The first `continue` of the row loop:
`if brand and rb and brand != rb`. -/
def brandSkip (l : Listing) (row : KBRow) : Bool :=
  let b := pyNormalize l.brand
  let rb := pyNormalize (some row.brand)
  b != "" && rb != "" && b != rb

/-- `needle` is a prefix of `haystack` (on lists of characters). -/
def listStartsWith : List Char → List Char → Bool
  | [], _ => true
  | _ :: _, [] => false
  | a :: as, b :: bs => a = b && listStartsWith as bs

/-- Python's substring test `needle in haystack` on strings: `needle` occurs
contiguously somewhere in `haystack` (always true for the empty needle). -/
def listContains : List Char → List Char → Bool
  | needle, [] => needle.isEmpty
  | needle, c :: rest => listStartsWith needle (c :: rest) || listContains needle rest

/-- The second `continue`: `if model and rm and model not in rm`
(Python substring test, listing-model inside row-model). -/
def modelSkip (l : Listing) (row : KBRow) : Bool :=
  let m := pyNormalize l.model
  let rm := pyNormalize (some row.model)
  m != "" && rm != "" && !listContains m.toList rm.toList

/-- The third `continue`:
`if isinstance(year, int) and y1 and y2 and not (y1 <= year <= y2)`.
Python truthiness makes a `None` or zero bound falsy, so it never excludes. -/
def yearSkip (l : Listing) (row : KBRow) : Bool :=
  match l.year, parse_year_range row.year_range with
  | some y, (some y1, some y2) =>
      y1 != 0 && y2 != 0 && !(decide (y1 ≤ y) && decide (y ≤ y2))
  | _, _ => false

/-- A row survives the three `continue`s of the filtered pass. -/
def rowKeep (l : Listing) (row : KBRow) : Bool :=
  !brandSkip l row && !modelSkip l row && !yearSkip l row

/-- `row.get("text", "").strip()`. -/
def rowText (row : KBRow) : String :=
  stripStr row.text

/-- The f-string rendering one surviving row:
`f"[{brand}/{model}/{year_range} • {topic}] {txt}"` with `topic` and `txt`
stripped and the other columns raw. -/
def formatChunk (row : KBRow) : String :=
  "[" ++ row.brand ++ "/" ++ row.model ++ "/" ++ row.year_range ++ " • "
    ++ stripStr row.topic ++ "] " ++ rowText row

/-- The chunks collected by the filtered pass, in table order: rows that
survive the three filters and have non-empty stripped text. -/
def filteredChunks (l : Listing) (rows : List KBRow) : List String :=
  rows.filterMap fun row =>
    if rowKeep l row && rowText row != "" then some (formatChunk row) else none

/-- The chunks collected by the unfiltered fallback pass, in table order:
every row with non-empty stripped text. -/
def allTextChunks (rows : List KBRow) : List String :=
  rows.filterMap fun row =>
    if rowText row != "" then some (formatChunk row) else none

/-- advisor.load_kb_for_listing: the filtered pass, the whole-table fallback
when the filtered pass produced nothing, and the cap `chunks[:8]`. -/
def load_kb_for_listing (l : Listing) (rows : List KBRow) : List String :=
  let chunks := filteredChunks l rows
  (if chunks.isEmpty then allTextChunks rows else chunks).take 8

/-!
## ResilientJSONExtractor: _extract_json (identical in both modules)

`json.loads` is modelled by a strict recursive-descent parser over the decoded
value type below. Python decodes integer literals to `int` and literals with a
fraction or exponent to `float`; finite floats are carried as the exact
rationals their literals denote, and the non-finite constants `NaN`,
`Infinity`, `-Infinity` (which Python's decoder accepts) are separate
constructors. Objects follow dict semantics: a duplicate key overwrites the
earlier value in place.
-/

inductive Json where
  | null
  | bool (b : Bool)
  | int (n : Int)
  | float (mant : Int) (exp : Int)
  | nan
  | inf (neg : Bool)
  | str (s : String)
  | arr (elems : List Json)
  | obj (fields : List (String × Json))

/-- Python dict assignment on an association list: overwrite the value at the
first occurrence of the key, keeping its position, else append. -/
def insertKV (k : String) (v : Json) : List (String × Json) → List (String × Json)
  | [] => [(k, v)]
  | (k', v') :: rest =>
      if k' = k then (k, v) :: rest else (k', v') :: insertKV k v rest

/-- Python dict lookup on an association list built by `insertKV`. -/
def lookupKV (k : String) : List (String × Json) → Option Json
  | [] => none
  | (k', v) :: rest => if k' = k then some v else lookupKV k rest

/-- JSON insignificant whitespace (space, tab, newline, carriage return). -/
def isJsonWs (c : Char) : Bool :=
  c = ' ' || c = '\t' || c = '\n' || c = '\r'

def skipJWs (cs : List Char) : List Char :=
  cs.dropWhile isJsonWs

def hexVal (c : Char) : Option Nat :=
  if '0' ≤ c ∧ c ≤ '9' then some (c.toNat - 48)
  else if 'a' ≤ c ∧ c ≤ 'f' then some (c.toNat - 87)
  else if 'A' ≤ c ∧ c ≤ 'F' then some (c.toNat - 55)
  else none

def hex4 (a b c d : Char) : Option Nat := do
  let x ← hexVal a
  let y ← hexVal b
  let z ← hexVal c
  let w ← hexVal d
  pure (((x * 16 + y) * 16 + z) * 16 + w)

/-- JSON string body after the opening quote, strict mode: a raw control
character is an error; recognized escapes only; `\uXXXX` escapes combine
surrogate pairs (a lone surrogate, which Lean's `Char` cannot hold, is mapped
to U+FFFD — the only place the embedding approximates CPython). -/
def parseJStringBody : Nat → List Char → List Char → Option (String × List Char)
  | 0, _, _ => none
  | _ + 1, '"' :: rest, acc => some (String.mk acc.reverse, rest)
  | fuel + 1, '\\' :: 'u' :: h1 :: h2 :: h3 :: h4 :: '\\' :: 'u' :: g1 :: g2 :: g3 :: g4 :: rest, acc =>
      match hex4 h1 h2 h3 h4 with
      | none => none
      | some n =>
          if 0xD800 ≤ n ∧ n ≤ 0xDBFF then
            match hex4 g1 g2 g3 g4 with
            | some m =>
                if 0xDC00 ≤ m ∧ m ≤ 0xDFFF then
                  let code := 0x10000 + (n - 0xD800) * 0x400 + (m - 0xDC00)
                  parseJStringBody fuel rest (Char.ofNat code :: acc)
                else
                  parseJStringBody fuel ('\\' :: 'u' :: g1 :: g2 :: g3 :: g4 :: rest)
                    (Char.ofNat 0xFFFD :: acc)
            | none =>
                parseJStringBody fuel ('\\' :: 'u' :: g1 :: g2 :: g3 :: g4 :: rest)
                  (Char.ofNat 0xFFFD :: acc)
          else
            parseJStringBody fuel ('\\' :: 'u' :: g1 :: g2 :: g3 :: g4 :: rest)
              ((if 0xDC00 ≤ n ∧ n ≤ 0xDFFF then Char.ofNat 0xFFFD else Char.ofNat n) :: acc)
  | fuel + 1, '\\' :: 'u' :: h1 :: h2 :: h3 :: h4 :: rest, acc =>
      match hex4 h1 h2 h3 h4 with
      | none => none
      | some n =>
          parseJStringBody fuel rest
            ((if 0xD800 ≤ n ∧ n ≤ 0xDFFF then Char.ofNat 0xFFFD else Char.ofNat n) :: acc)
  | fuel + 1, '\\' :: e :: rest, acc =>
      let esc : Option Char :=
        if e = '"' then some '"'
        else if e = '\\' then some '\\'
        else if e = '/' then some '/'
        else if e = 'b' then some '\x08'
        else if e = 'f' then some '\x0c'
        else if e = 'n' then some '\n'
        else if e = 'r' then some '\r'
        else if e = 't' then some '\t'
        else none
      match esc with
      | some c => parseJStringBody fuel rest (c :: acc)
      | none => none
  | fuel + 1, c :: rest, acc =>
      if c.toNat < 32 then none else parseJStringBody fuel rest (c :: acc)
  | _ + 1, [], _ => none

/-- JSON string parse after the opening quote: fuel one beyond the remaining
length, so it cannot run out (every step consumes at least one character). -/
def parseJString (cs : List Char) : Option (String × List Char) :=
  parseJStringBody (cs.length + 1) cs []

/-- Maximal ASCII digit prefix and the remainder. -/
def takeDigitsRun : List Char → List Char × List Char
  | [] => ([], [])
  | c :: rest =>
      if c.isDigit then
        let (ds, r) := takeDigitsRun rest
        (c :: ds, r)
      else ([], c :: rest)

/-- A JSON number at the head of the input: `-?(0|[1-9]\d*)(\.\d+)?([eE][-+]?\d+)?`,
greedy, leaving the remainder; an integer literal decodes to `Json.int`, any
literal with a fraction or exponent to `Json.float`, carried as the exact
scaled decimal `mant * 10 ^ exp` the literal denotes. -/
def parseJNumber (cs : List Char) : Option (Json × List Char) :=
  let core : Bool → List Char → Option (Json × List Char) := fun neg cs1 =>
    match takeDigitsRun cs1 with
    | ([], _) => none
    | (ds, rest) =>
        if 1 < ds.length && ds.headD ' ' = '0' then none
        else
          let fr : List Char × List Char :=
            match rest with
            | '.' :: r =>
                match takeDigitsRun r with
                | ([], _) => ([], rest)
                | (fs, r2) => (fs, r2)
            | _ => ([], rest)
          let fracDs := fr.1
          let rest2 := fr.2
          let ex : Bool × Bool × List Char × List Char :=
            match rest2 with
            | e :: r =>
                if e = 'e' || e = 'E' then
                  match r with
                  | '+' :: r2 =>
                      (match takeDigitsRun r2 with
                       | ([], _) => (false, false, [], rest2)
                       | (es, r3) => (true, false, es, r3))
                  | '-' :: r2 =>
                      (match takeDigitsRun r2 with
                       | ([], _) => (false, false, [], rest2)
                       | (es, r3) => (true, true, es, r3))
                  | _ =>
                      (match takeDigitsRun r with
                       | ([], _) => (false, false, [], rest2)
                       | (es, r3) => (true, false, es, r3))
                else (false, false, [], rest2)
            | [] => (false, false, [], rest2)
          let hasExp := ex.1
          let expNeg := ex.2.1
          let expDs := ex.2.2.1
          let rest3 := ex.2.2.2
          if fracDs.isEmpty && !hasExp then
            let n : Int := Int.ofNat (digitsToNat ds)
            some (.int (if neg then -n else n), rest3)
          else
            let mant : Int := Int.ofNat (digitsToNat (ds ++ fracDs))
            let mant : Int := if neg then -mant else mant
            let e : Int :=
              (if expNeg then -(Int.ofNat (digitsToNat expDs))
               else Int.ofNat (digitsToNat expDs)) - Int.ofNat fracDs.length
            some (.float mant e, rest3)
  match cs with
  | '-' :: rest => core true rest
  | _ => core false cs

mutual

/-- One JSON value at the head of the input (after skipping whitespace),
including Python's accepted non-finite constants; fuel bounds the recursion
depth and is chosen large enough at the top entry that it never runs out on
an input the decoder accepts. -/
def parseJValue : Nat → List Char → Option (Json × List Char)
  | 0, _ => none
  | fuel + 1, cs =>
      match skipJWs cs with
      | 'n' :: 'u' :: 'l' :: 'l' :: rest => some (.null, rest)
      | 't' :: 'r' :: 'u' :: 'e' :: rest => some (.bool true, rest)
      | 'f' :: 'a' :: 'l' :: 's' :: 'e' :: rest => some (.bool false, rest)
      | 'N' :: 'a' :: 'N' :: rest => some (.nan, rest)
      | 'I' :: 'n' :: 'f' :: 'i' :: 'n' :: 'i' :: 't' :: 'y' :: rest =>
          some (.inf false, rest)
      | '-' :: 'I' :: 'n' :: 'f' :: 'i' :: 'n' :: 'i' :: 't' :: 'y' :: rest =>
          some (.inf true, rest)
      | '"' :: rest => (parseJString rest).map fun p => (.str p.1, p.2)
      | '[' :: rest => parseJArr fuel rest
      | '\x7b' :: rest => parseJObj fuel rest
      | cs' => parseJNumber cs'

/-- Array continuation after `[`. -/
def parseJArr : Nat → List Char → Option (Json × List Char)
  | 0, _ => none
  | fuel + 1, cs =>
      match skipJWs cs with
      | ']' :: rest => some (.arr [], rest)
      | cs' => parseJArrElems fuel cs' []

/-- Comma-separated array elements (at least one). -/
def parseJArrElems : Nat → List Char → List Json → Option (Json × List Char)
  | 0, _, _ => none
  | fuel + 1, cs, acc =>
      match parseJValue fuel cs with
      | none => none
      | some (v, rest) =>
          match skipJWs rest with
          | ',' :: rest2 => parseJArrElems fuel rest2 (v :: acc)
          | ']' :: rest2 => some (.arr (v :: acc).reverse, rest2)
          | _ => none

/-- Object continuation after the opening brace. -/
def parseJObj : Nat → List Char → Option (Json × List Char)
  | 0, _ => none
  | fuel + 1, cs =>
      match skipJWs cs with
      | '\x7d' :: rest => some (.obj [], rest)
      | cs' => parseJObjMembers fuel cs' []

/-- Comma-separated `"key": value` members (at least one), accumulated with
dict assignment semantics. -/
def parseJObjMembers : Nat → List Char → List (String × Json) → Option (Json × List Char)
  | 0, _, _ => none
  | fuel + 1, cs, acc =>
      match skipJWs cs with
      | '"' :: rest =>
          match parseJString rest with
          | none => none
          | some (k, rest2) =>
              match skipJWs rest2 with
              | ':' :: rest3 =>
                  match parseJValue fuel rest3 with
                  | none => none
                  | some (v, rest4) =>
                      match skipJWs rest4 with
                      | ',' :: rest5 => parseJObjMembers fuel rest5 (insertKV k v acc)
                      | '\x7d' :: rest5 => some (.obj (insertKV k v acc), rest5)
                      | _ => none
              | _ => none
      | _ => none

end

/-- Python `json.loads`: one JSON value, then nothing but whitespace
("Extra data" otherwise). The fuel `4 * length + 8` strictly dominates the
recursion depth reachable while consuming the input. -/
def jsonLoads (cs : List Char) : Option Json :=
  match parseJValue (4 * cs.length + 8) cs with
  | some (v, rest) => if (skipJWs rest).isEmpty then some v else none
  | none => none

/-!
### The fence and brace-span regexes
-/

/-- The backtick character (kept out of source text by building it from its
code point). -/
def btick : Char := Char.ofNat 96

/-- Text before the LAST occurrence of a closing fence in `cs` — the group the
greedy `(.*)` of the fence regex captures. `none` when no fence occurs. -/
def beforeLastFence (cs : List Char) : Option (List Char) :=
  match cs with
  | [] => none
  | c :: rest =>
      match beforeLastFence rest with
      | some p => some (c :: p)
      | none =>
          if listStartsWith [btick, btick, btick] (c :: rest) then some []
          else none

/-- The fence regex `re.match` of `_extract_json` (pattern: three backticks,
an optional `json` tag, greedy whitespace, the greedy payload group, three
backticks, with trailing text unconstrained since `re.match` does not anchor
the end): if the stripped text starts with a fence, return the payload group,
i.e. everything between the tag/whitespace and the last closing fence. -/
def fencePayload (cs : List Char) : Option (List Char) :=
  if listStartsWith [btick, btick, btick] cs then
    let cs1 := cs.drop 3
    let cs2 := if listStartsWith ['j', 's', 'o', 'n'] cs1 then cs1.drop 4 else cs1
    beforeLastFence (cs2.dropWhile isPyWs)
  else none

/-- Text before the last closing brace of `cs` (`none` when there is none). -/
def beforeLastRBrace (cs : List Char) : Option (List Char) :=
  match cs with
  | [] => none
  | c :: rest =>
      match beforeLastRBrace rest with
      | some p => some (c :: p)
      | none => if c = '\x7d' then some [] else none

/-- The regex `re.search` with the greedy brace pattern of `_extract_json`:
the span running from the first opening brace to the last closing brace after
it, when both exist. -/
def braceSpan (cs : List Char) : Option (List Char) :=
  match cs.dropWhile (· != '\x7b') with
  | [] => none
  | c :: rest =>
      match beforeLastRBrace rest with
      | some p => some (c :: (p ++ ['\x7d']))
      | none => none

/-- What a failing `_extract_json` raises: the explicit
`ValueError("Could not parse JSON from model output.")`, or the
`json.JSONDecodeError` (a ValueError subclass) propagating out of the
brace-span parse, whose document attribute is the span being parsed. -/
inductive ExtractErr where
  | valueError (msg : String)
  | decodeError (doc : String)

/-- The text payload the raised exception carries. -/
def ExtractErr.payload : ExtractErr → String
  | .valueError m => m
  | .decodeError d => d

/-- The text `_extract_json` hands to its first `json.loads` call: the input
stripped, then — when the fence regex matches — replaced by the stripped
payload group. -/
def preParseText (t : String) : List Char :=
  let u := pyStrip t.toList
  match fencePayload u with
  | some p => pyStrip p
  | none => u

def noJsonMsg : String := "Could not parse JSON from model output."

/-- `_extract_json` (textually identical in advisor.py and
extract_listing.py): strip, unwrap a fenced block, try a strict parse, then
try a strict parse of the first-brace-to-last-brace span. The explicit
ValueError is raised only when no span exists; a span that fails its strict
parse propagates the decode error instead. -/
def extract_json (t : String) : Except ExtractErr Json :=
  let cs := preParseText t
  match jsonLoads cs with
  | some v => .ok v
  | none =>
      match braceSpan cs with
      | some s =>
          match jsonLoads s with
          | some v => .ok v
          | none => .error (.decodeError (String.mk s))
      | none => .error (.valueError noJsonMsg)

/-!
## ListingExtractionService: extract_listing, lines 86-101

The network round trip is external; the embedding covers the normalization of
the parsed response object into the canonical listing record. `data.get(k)`
yields Python `None` both for a missing key and for a JSON `null` value, so
both are represented by `Json.null` here.
-/

/-- `data.get(k)` on the parsed response object. -/
def pyGet (data : List (String × Json)) (k : String) : Json :=
  (lookupKV k data).getD .null

/-- Python truthiness of a decoded JSON value (used by `x if x else y` and
`x or y` in extract_listing). -/
def pyTruthy : Json → Bool
  | .null => false
  | .bool b => b
  | .int n => n != 0
  | .float m _ => m != 0
  | .nan => true
  | .inf _ => true
  | .str s => s != ""
  | .arr xs => !xs.isEmpty
  | .obj kvs => !kvs.isEmpty

/-- Python `str()`/`repr()` of a decoded JSON value, fuel-indexed for
structural recursion (`sizeOf` dominates the nesting depth at the entry
point). `quoted` distinguishes `repr` (inside containers, strings quoted)
from `str` (top level, strings verbatim). String escaping and float rendering
inside containers are simplified renderings; no claim depends on them, only
on the fact that the result of `str()` is some string. -/
def pyStrF : Nat → Bool → Json → String
  | _, _, .null => "None"
  | _, _, .bool b => if b then "True" else "False"
  | _, _, .int n => toString n
  | _, _, .float m e => toString m ++ "e" ++ toString e
  | _, _, .nan => "nan"
  | _, _, .inf neg => if neg then "-inf" else "inf"
  | _, quoted, .str s => if quoted then "'" ++ s ++ "'" else s
  | fuel + 1, _, .arr xs =>
      "[" ++ String.intercalate ", " (xs.map (pyStrF fuel true)) ++ "]"
  | fuel + 1, _, .obj kvs =>
      "\x7b"
        ++ String.intercalate ", "
            (kvs.map fun kv => "'" ++ kv.1 ++ "': " ++ pyStrF fuel true kv.2)
        ++ "\x7d"
  | 0, _, _ => ""

mutual

/-- Structural size of a decoded value, dominating its nesting depth. -/
def jsize : Json → Nat
  | .arr xs => 1 + jsizeList xs
  | .obj kvs => 1 + jsizeKVs kvs
  | _ => 1

def jsizeList : List Json → Nat
  | [] => 0
  | x :: xs => jsize x + jsizeList xs

def jsizeKVs : List (String × Json) → Nat
  | [] => 0
  | kv :: rest => jsize kv.2 + jsizeKVs rest

end

/-- Python `str(v)` on a decoded value. -/
def pyStr (v : Json) : String :=
  pyStrF (jsize v) false v

/-- Python `str.title()` on the ASCII range: the first letter of each maximal
letter run is uppercased, the rest lowercased. -/
def pyTitleGo : Bool → List Char → List Char
  | _, [] => []
  | prevAlpha, c :: rest =>
      if c.isAlpha then
        (if prevAlpha then c.toLower else c.toUpper) :: pyTitleGo true rest
      else c :: pyTitleGo false rest

def pyTitle (s : String) : String :=
  String.mk (pyTitleGo false s.toList)

/-- The rational a `Json.float` denotes (only used symbolically). -/
def decToRat (m e : Int) : Rat :=
  if 0 ≤ e then ((m * 10 ^ e.toNat : Int) : Rat)
  else Rat.divInt m (10 ^ (-e).toNat)

/-- The Python value `data.get(k)` presents to `_coerce_number`:
`None`/`null` is absent, ints stay ints (a bool is an int with value 0 or 1),
floats stay floats, and any other value reaches the textual branch through
`str(x)`. -/
def toCoerce : Json → CoerceInput
  | .null => .vnone
  | .int n => .vint n
  | .bool b => .vint (if b then 1 else 0)
  | .float m e => .vfloat (decToRat m e)
  | .nan => .vnan
  | .inf b => .vinf b
  | .str s => .vstr s
  | .arr xs => .vstr (pyStr (.arr xs))
  | .obj kvs => .vstr (pyStr (.obj kvs))

/-- The canonical listing record built at extract_listing lines 86-101.
Numeric fields carry what `_coerce_number` returns (a Python int or None);
pass-through fields carry the raw decoded value (`Json.null` when the
response omitted them). -/
structure ListingOut where
  brand : Option String
  model : Option String
  year : Option Int
  mileage_km : Option Int
  price_eur : Option Int
  fuel : Json
  transmission : Json
  trim : Json
  options : Json
  service_history : Json
  known_issues : Json
  seller_notes : Json
  text : Json
  created_at : String

/-- extract_listing lines 86-101: the `out = { ... }` dictionary built from
the parsed response `data` and the original `ad_text`. `now` is the reading
of the external clock (`datetime.utcnow().isoformat()`); an error is the
ValueError/OverflowError propagating out of `int()` inside `_coerce_number`
on a non-finite float. -/
def buildListing (ad_text : String) (now : String) (data : List (String × Json)) :
    Except String ListingOut := do
  let year ← coerce_number (toCoerce (pyGet data "year"))
  let mileage ← coerce_number (toCoerce (pyGet data "mileage_km"))
  let price ← coerce_number (toCoerce (pyGet data "price_eur"))
  let brandV := pyGet data "brand"
  let modelV := pyGet data "model"
  let optionsV := pyGet data "options"
  let knownV := pyGet data "known_issues"
  let textV := pyGet data "text"
  .ok
    { brand := if pyTruthy brandV then some (stripStr (pyTitle (pyStr brandV))) else none
      model := if pyTruthy modelV then some (stripStr (pyStr modelV)) else none
      year := year
      mileage_km := mileage
      price_eur := price
      fuel := pyGet data "fuel"
      transmission := pyGet data "transmission"
      trim := pyGet data "trim"
      options := if pyTruthy optionsV then optionsV else .arr []
      service_history := pyGet data "service_history"
      known_issues := if pyTruthy knownV then knownV else .arr []
      seller_notes := pyGet data "seller_notes"
      text := if pyTruthy textV then textV else .str ad_text
      created_at := now ++ "Z" }

/-!
## AdvisoryService: advise, lines 134-144

The retrieval and the completion round trip are covered by
`load_kb_for_listing` and the external service; the defaulting applied to the
successfully parsed advisory object is the `out.setdefault(...)` chain.
-/

/-- Python `dict.setdefault(k, v)`: insert `k ↦ v` (at the end) only when `k`
is absent. -/
def setdefault (k : String) (v : Json) (o : List (String × Json)) :
    List (String × Json) :=
  match lookupKV k o with
  | some _ => o
  | none => o ++ [(k, v)]

/-- advise lines 135-142: the eight `out.setdefault` calls, in program
order. -/
def finalizeAdvisory (o : List (String × Json)) : List (String × Json) :=
  let o := setdefault "pros" (.arr []) o
  let o := setdefault "cons" (.arr []) o
  let o := setdefault "questions_to_ask" (.arr []) o
  let o := setdefault "citations" (.arr []) o
  let o := setdefault "price_assessment" (.str "Unknown") o
  let o := setdefault "mechanical_risk" (.str "Medium") o
  let o := setdefault "info_completeness" (.str "Medium") o
  setdefault "summary" (.str "") o

example : jsonLoads "\x7b\x22a\x22:1\x7d".toList = some (Json.obj [("a", Json.int 1)]) := by rfl
example : jsonLoads " [1, null, \x22x\x22] ".toList
    = some (Json.arr [Json.int 1, Json.null, Json.str "x"]) := by rfl
example : jsonLoads "2.5".toList = some (Json.float 25 (-1)) := by rfl
example : jsonLoads "-1.5e2".toList = some (Json.float (-15) 1) := by rfl
example : jsonLoads "01".toList = none := by rfl
example : extract_json "noise \x7b\x22a\x22:1\x7d trailing" = .ok (Json.obj [("a", Json.int 1)]) := by rfl
example : extract_json "```json\n\x7b\x22a\x22:1\x7d\n```" = .ok (Json.obj [("a", Json.int 1)]) := by rfl
example : extract_json "```\n\x7b\x22a\x22: true\x7d\n``` trailing prose"
    = .ok (Json.obj [("a", Json.bool true)]) := by rfl
example : extract_json "not json at all" = .error (.valueError noJsonMsg) := by rfl
example : extract_json "x \x7bnot json\x7d y" = .error (.decodeError "\x7bnot json\x7d") := by rfl

example : coerce_number (.vstr "98 000 km") = .ok (some 98000) := by rfl
example : coerce_number (.vstr "11 500€") = .ok (some 11500) := by rfl
example : parse_year_range "2013-2019" = (some 2013, some 2019) := by decide
example : parse_year_range " 2013 – 2019 " = (some 2013, some 2019) := by decide
example : parse_year_range "2015" = (some 2015, some 2015) := by decide
example : parse_year_range "999" = (some 999, some 999) := by decide
example : parse_year_range "abc" = (none, none) := by decide
example : parse_year_range "1_2" = (some 12, some 12) := by decide
example : parse_year_range "20133-2019" = (none, none) := by decide

/-!
# Theorems

Helper lemmas first, then one theorem per specification claim (with its
witness or counterexample where required).
-/

/-- A noise character removed by the first substitution of `_coerce_number`
is never a digit, so the second substitution alone determines the digits. -/
theorem isCurrencyNoise_not_digit (c : Char) (h : isCurrencyNoise c = true) :
    c.isDigit = false := by
  simp only [isCurrencyNoise, isPyWs, Bool.or_eq_true, decide_eq_true_eq] at h
  casesm* _ ∨ _ <;> subst_vars <;> decide

/-- Removing the `[€\s,kmKM]` class first does not change the digit
subsequence. -/
theorem filter_noise_then_digits (cs : List Char) :
    (cs.filter (fun c => !isCurrencyNoise c)).filter Char.isDigit
      = cs.filter Char.isDigit := by
  induction cs with
  | nil => rfl
  | cons c rest ih =>
      by_cases hn : isCurrencyNoise c = true
      · have hd := isCurrencyNoise_not_digit c hn
        simp [List.filter_cons, hn, hd, ih]
      · simp only [Bool.not_eq_true] at hn
        simp [List.filter_cons, hn, ih]

/-- `take 8` of a non-empty list is non-empty. -/
theorem take8_ne_nil {α : Type} (xs : List α) (h : xs ≠ []) : xs.take 8 ≠ [] := by
  cases xs with
  | nil => exact absurd rfl h
  | cons a t => simp [List.take]

/-- A row with non-empty stripped text contributes its chunk to the
unfiltered pass. -/
theorem mem_allTextChunks {row : KBRow} {rows : List KBRow}
    (hr : row ∈ rows) (ht : rowText row ≠ "") :
    formatChunk row ∈ allTextChunks rows := by
  refine List.mem_filterMap.mpr ⟨row, hr, ?_⟩
  simp [ht]

/-- `load_kb_for_listing` with its `let` unfolded. -/
theorem load_kb_eq (l : Listing) (rows : List KBRow) :
    load_kb_for_listing l rows
      = List.take 8 (if (filteredChunks l rows).isEmpty then allTextChunks rows
          else filteredChunks l rows) := rfl

/-!
## Claim C2 — matcher exclusion conditions
-/

/-- C2: `load_kb_for_listing` (with brand/model lower-cased and trimmed by
`_normalize` before comparison) excludes a row on brand only if both brands
are present (non-empty) and differ exactly; on model only if both are present
and the listing's model is not a substring of the row's model
(listing-in-row); on year only if the listing year is a known integer, the
row's `year_range` parses to two real bounds, and the listing year lies
outside the inclusive bounds; and a row with an empty brand or model field is
never excluded on that dimension. -/
theorem c2_matcher_exclusion (l : Listing) (row : KBRow) :
    (brandSkip l row = true →
      pyNormalize l.brand ≠ "" ∧ pyNormalize (some row.brand) ≠ ""
        ∧ pyNormalize l.brand ≠ pyNormalize (some row.brand))
    ∧ (modelSkip l row = true →
      pyNormalize l.model ≠ "" ∧ pyNormalize (some row.model) ≠ ""
        ∧ listContains (pyNormalize l.model).toList
            (pyNormalize (some row.model)).toList = false)
    ∧ (yearSkip l row = true →
      ∃ y y1 y2, l.year = some y
        ∧ parse_year_range row.year_range = (some y1, some y2)
        ∧ ¬(y1 ≤ y ∧ y ≤ y2))
    ∧ (pyNormalize (some row.brand) = "" → brandSkip l row = false)
    ∧ (pyNormalize (some row.model) = "" → modelSkip l row = false) := by
  refine ⟨?_, ?_, ?_, ?_, ?_⟩
  · intro h
    simp only [brandSkip, Bool.and_eq_true, bne_iff_ne, ne_eq] at h
    exact ⟨h.1.1, h.1.2, h.2⟩
  · intro h
    simp only [modelSkip, Bool.and_eq_true, bne_iff_ne, ne_eq,
      Bool.not_eq_true'] at h
    exact ⟨h.1.1, h.1.2, h.2⟩
  · intro h
    unfold yearSkip at h
    split at h
    · next y y1 y2 hy hp =>
        refine ⟨y, y1, y2, hy, hp, ?_⟩
        simp only [Bool.and_eq_true, Bool.not_eq_true'] at h
        intro hc
        rw [decide_eq_true hc.1, decide_eq_true hc.2] at h
        exact absurd h.2 (by decide)
    · exact Bool.noConfusion h
  · intro h
    simp [brandSkip, h]
  · intro h
    simp [modelSkip, h]

/-- Witness for C2 at concrete inputs: a listing `{vw, polo, 2000}` against a
row `{BMW, golf 7, 2013-2019}` fires all three exclusions, and a row with
empty brand/model fields fires neither of the first two. -/
theorem c2_matcher_exclusion_witness :
    (pyNormalize (some "vw") ≠ "" ∧ pyNormalize (some "BMW") ≠ ""
      ∧ pyNormalize (some "vw") ≠ pyNormalize (some "BMW"))
    ∧ (∃ y y1 y2, (Listing.mk (some "vw") (some "polo") (some 2000)).year = some y
        ∧ parse_year_range "2013-2019" = (some y1, some y2)
        ∧ ¬(y1 ≤ y ∧ y ≤ y2))
    ∧ brandSkip (Listing.mk (some "vw") (some "polo") (some 2000))
        (KBRow.mk "" "" "2013-2019" "t" "x") = false := by
  refine ⟨?_, ?_, ?_⟩
  · exact (c2_matcher_exclusion ⟨some "vw", some "polo", some 2000⟩
      ⟨"BMW", "golf 7", "2013-2019", "t", "x"⟩).1 (by decide)
  · exact (c2_matcher_exclusion ⟨some "vw", some "polo", some 2000⟩
      ⟨"BMW", "golf 7", "2013-2019", "t", "x"⟩).2.2.1 (by decide)
  · exact (c2_matcher_exclusion ⟨some "vw", some "polo", some 2000⟩
      ⟨"", "", "2013-2019", "t", "x"⟩).2.2.2.1 (by decide)

/-!
## Claim C3 — fallback and capping (corrected: the fallback can be empty)
-/

/-- C3 counterexample: a listing matching no rows, over a table whose only
row has empty text. The filtered pass excludes the row (brand mismatch), the
fallback re-scan drops it too (empty text), and the matcher returns the
empty sequence — not a non-empty fallback. -/
theorem c3_counterexample :
    load_kb_for_listing ⟨some "vw", some "golf", some 2016⟩
        [⟨"bmw", "x5", "2010-2015", "brakes", ""⟩] = []
    ∧ rowKeep ⟨some "vw", some "golf", some 2016⟩
        ⟨"bmw", "x5", "2010-2015", "brakes", ""⟩ = false := by
  exact ⟨by decide, by decide⟩

/-- C3 amended: the matcher never fails; when the filtered pass is empty the
result is the unfiltered re-scan of the whole table capped at 8, otherwise
the filtered chunks capped at 8 (both in original table order); and the
result is non-empty whenever at least one table row has non-empty stripped
text (but is empty when no row does — the claim's unconditional non-empty
fallback does not hold). -/
theorem c3_fallback_and_cap (l : Listing) (rows : List KBRow) :
    (load_kb_for_listing l rows).length ≤ 8
    ∧ (filteredChunks l rows = [] →
        load_kb_for_listing l rows = (allTextChunks rows).take 8)
    ∧ (filteredChunks l rows ≠ [] →
        load_kb_for_listing l rows = (filteredChunks l rows).take 8)
    ∧ ((∃ r ∈ rows, rowText r ≠ "") → load_kb_for_listing l rows ≠ []) := by
  refine ⟨?_, ?_, ?_, ?_⟩
  · rw [load_kb_eq]
    split <;> simp [List.length_take]
  · intro h
    rw [load_kb_eq, if_pos (by simp [h])]
  · intro h
    rw [load_kb_eq, if_neg (by simpa using h)]
  · rintro ⟨r, hr, ht⟩
    rw [load_kb_eq]
    by_cases hf : (filteredChunks l rows).isEmpty
    · rw [if_pos hf]
      refine take8_ne_nil _ fun hnil => ?_
      exact absurd (hnil ▸ mem_allTextChunks hr ht) (List.not_mem_nil _)
    · rw [if_neg hf]
      refine take8_ne_nil _ fun hnil => ?_
      simp [hnil] at hf

/-- Witness for C3 (amended) at concrete inputs: both branches of the
fallback, and the non-emptiness guarantee. -/
theorem c3_fallback_and_cap_witness :
    load_kb_for_listing ⟨some "vw", some "golf", some 2016⟩
        [⟨"bmw", "x5", "2010-2015", "t", "hello"⟩]
      = (allTextChunks [⟨"bmw", "x5", "2010-2015", "t", "hello"⟩]).take 8
    ∧ load_kb_for_listing ⟨none, none, none⟩
        [⟨"a", "b", "2013-2019", "t", "hello"⟩]
      = (filteredChunks ⟨none, none, none⟩
          [⟨"a", "b", "2013-2019", "t", "hello"⟩]).take 8
    ∧ load_kb_for_listing ⟨none, none, none⟩
        [⟨"a", "b", "2013-2019", "t", "hello"⟩] ≠ [] := by
  refine ⟨?_, ?_, ?_⟩
  · exact (c3_fallback_and_cap ⟨some "vw", some "golf", some 2016⟩
      [⟨"bmw", "x5", "2010-2015", "t", "hello"⟩]).2.1 (by decide)
  · exact (c3_fallback_and_cap ⟨none, none, none⟩
      [⟨"a", "b", "2013-2019", "t", "hello"⟩]).2.2.1 (by decide)
  · exact (c3_fallback_and_cap ⟨none, none, none⟩
      [⟨"a", "b", "2013-2019", "t", "hello"⟩]).2.2.2 (by decide)

/-!
## Claim C10 — empty-text rows are never rendered
-/

/-- C10: every chunk the matcher returns is the rendering of some table row
with non-empty stripped text (on either path), and when no row of the table
has non-empty text the matcher returns the empty sequence. -/
theorem c10_empty_text_never_rendered (l : Listing) (rows : List KBRow) :
    (∀ c ∈ load_kb_for_listing l rows,
      ∃ r ∈ rows, rowText r ≠ "" ∧ c = formatChunk r)
    ∧ ((∀ r ∈ rows, rowText r = "") → load_kb_for_listing l rows = []) := by
  constructor
  · intro c hc
    rw [load_kb_eq] at hc
    have hc2 := List.take_subset _ _ hc
    have hc3 : c ∈ filteredChunks l rows ∨ c ∈ allTextChunks rows := by
      by_cases hf : (filteredChunks l rows).isEmpty
      · rw [if_pos hf] at hc2; exact Or.inr hc2
      · rw [if_neg hf] at hc2; exact Or.inl hc2
    rcases hc3 with h | h
    · rcases List.mem_filterMap.mp h with ⟨r, hr, heq⟩
      by_cases hcond : (rowKeep l r && rowText r != "") = true
      · rw [if_pos hcond] at heq
        simp only [Bool.and_eq_true, bne_iff_ne] at hcond
        exact ⟨r, hr, hcond.2, (Option.some.inj heq).symm⟩
      · rw [if_neg hcond] at heq
        cases heq
    · rcases List.mem_filterMap.mp h with ⟨r, hr, heq⟩
      by_cases hcond : (rowText r != "") = true
      · rw [if_pos hcond] at heq
        exact ⟨r, hr, bne_iff_ne.mp hcond, (Option.some.inj heq).symm⟩
      · rw [if_neg hcond] at heq
        cases heq
  · intro h
    have hall : allTextChunks rows = [] := by
      refine List.filterMap_eq_nil_iff.mpr fun r hr => ?_
      simp [h r hr]
    have hfil : filteredChunks l rows = [] := by
      refine List.filterMap_eq_nil_iff.mpr fun r hr => ?_
      simp [h r hr]
    rw [load_kb_eq, if_pos (by simp [hfil]), hall]
    rfl

/-- Witness for C10 at concrete inputs: the single returned chunk is the
rendering of the single row with non-empty text, and a table whose rows all
have blank text yields the empty sequence. -/
theorem c10_empty_text_never_rendered_witness :
    (∃ r ∈ [KBRow.mk "a" "b" "2013-2019" "t" "hello"],
      rowText r ≠ ""
        ∧ formatChunk (KBRow.mk "a" "b" "2013-2019" "t" "hello") = formatChunk r)
    ∧ load_kb_for_listing ⟨none, none, none⟩ [⟨"a", "b", "", "t", "  "⟩] = [] := by
  constructor
  · exact (c10_empty_text_never_rendered ⟨none, none, none⟩
      [⟨"a", "b", "2013-2019", "t", "hello"⟩]).1
      (formatChunk ⟨"a", "b", "2013-2019", "t", "hello"⟩) (by decide)
  · exact (c10_empty_text_never_rendered ⟨none, none, none⟩
      [⟨"a", "b", "", "t", "  "⟩]).2 (by decide)

/-!
## Claim C5 — advisory defaulting
-/

/-- `lookupKV` distributes over append. -/
theorem lookupKV_append (k : String) (o₁ o₂ : List (String × Json)) :
    lookupKV k (o₁ ++ o₂)
      = match lookupKV k o₁ with
        | some v => some v
        | none => lookupKV k o₂ := by
  induction o₁ with
  | nil => simp [lookupKV]
  | cons kv rest ih =>
      rcases kv with ⟨a, v⟩
      by_cases h : a = k
      · simp [lookupKV, h]
      · simp [lookupKV, h, ih]

/-- Looking up the key just defaulted: the present value wins, else the
default. -/
theorem lookupKV_setdefault_self (k : String) (v : Json) (o : List (String × Json)) :
    lookupKV k (setdefault k v o) = some ((lookupKV k o).getD v) := by
  unfold setdefault
  cases h : lookupKV k o with
  | some w => simp [h]
  | none =>
      show lookupKV k (o ++ [(k, v)]) = some (Option.getD none v)
      rw [lookupKV_append, h]
      simp [lookupKV]

/-- Defaulting one key leaves every other key's lookup unchanged. -/
theorem lookupKV_setdefault_ne (k k' : String) (v : Json) (o : List (String × Json))
    (h : k' ≠ k) :
    lookupKV k (setdefault k' v o) = lookupKV k o := by
  unfold setdefault
  cases hx : lookupKV k' o with
  | some w => rfl
  | none =>
      show lookupKV k (o ++ [(k', v)]) = lookupKV k o
      rw [lookupKV_append]
      cases hy : lookupKV k o with
      | some w => rfl
      | none => simp [lookupKV, h]

/-- The `out.setdefault` chain of advise, lines 135-142, fully applied. -/
theorem finalizeAdvisory_eq (o : List (String × Json)) :
    finalizeAdvisory o
      = setdefault "summary" (.str "")
          (setdefault "info_completeness" (.str "Medium")
            (setdefault "mechanical_risk" (.str "Medium")
              (setdefault "price_assessment" (.str "Unknown")
                (setdefault "citations" (.arr [])
                  (setdefault "questions_to_ask" (.arr [])
                    (setdefault "cons" (.arr [])
                      (setdefault "pros" (.arr []) o))))))) := rfl

/-- C5: after the defaulting chain of advise, each of the eight fields reads
back as the parsed object's own value when present and as its documented
default when missing — so every field of the returned record is populated,
and present fields pass through unchanged. -/
theorem c5_advise_defaulting (o : List (String × Json)) :
    lookupKV "pros" (finalizeAdvisory o) = some ((lookupKV "pros" o).getD (Json.arr []))
    ∧ lookupKV "cons" (finalizeAdvisory o) = some ((lookupKV "cons" o).getD (Json.arr []))
    ∧ lookupKV "questions_to_ask" (finalizeAdvisory o) = some ((lookupKV "questions_to_ask" o).getD (Json.arr []))
    ∧ lookupKV "citations" (finalizeAdvisory o) = some ((lookupKV "citations" o).getD (Json.arr []))
    ∧ lookupKV "price_assessment" (finalizeAdvisory o) = some ((lookupKV "price_assessment" o).getD (Json.str "Unknown"))
    ∧ lookupKV "mechanical_risk" (finalizeAdvisory o) = some ((lookupKV "mechanical_risk" o).getD (Json.str "Medium"))
    ∧ lookupKV "info_completeness" (finalizeAdvisory o) = some ((lookupKV "info_completeness" o).getD (Json.str "Medium"))
    ∧ lookupKV "summary" (finalizeAdvisory o) = some ((lookupKV "summary" o).getD (Json.str "")) := by
  refine ⟨?_, ?_, ?_, ?_, ?_, ?_, ?_, ?_⟩
  · rw [finalizeAdvisory_eq,
      lookupKV_setdefault_ne "pros" "summary" _ _ (by decide),
      lookupKV_setdefault_ne "pros" "info_completeness" _ _ (by decide),
      lookupKV_setdefault_ne "pros" "mechanical_risk" _ _ (by decide),
      lookupKV_setdefault_ne "pros" "price_assessment" _ _ (by decide),
      lookupKV_setdefault_ne "pros" "citations" _ _ (by decide),
      lookupKV_setdefault_ne "pros" "questions_to_ask" _ _ (by decide),
      lookupKV_setdefault_ne "pros" "cons" _ _ (by decide),
      lookupKV_setdefault_self]
  · rw [finalizeAdvisory_eq,
      lookupKV_setdefault_ne "cons" "summary" _ _ (by decide),
      lookupKV_setdefault_ne "cons" "info_completeness" _ _ (by decide),
      lookupKV_setdefault_ne "cons" "mechanical_risk" _ _ (by decide),
      lookupKV_setdefault_ne "cons" "price_assessment" _ _ (by decide),
      lookupKV_setdefault_ne "cons" "citations" _ _ (by decide),
      lookupKV_setdefault_ne "cons" "questions_to_ask" _ _ (by decide),
      lookupKV_setdefault_self,
      lookupKV_setdefault_ne "cons" "pros" _ _ (by decide)]
  · rw [finalizeAdvisory_eq,
      lookupKV_setdefault_ne "questions_to_ask" "summary" _ _ (by decide),
      lookupKV_setdefault_ne "questions_to_ask" "info_completeness" _ _ (by decide),
      lookupKV_setdefault_ne "questions_to_ask" "mechanical_risk" _ _ (by decide),
      lookupKV_setdefault_ne "questions_to_ask" "price_assessment" _ _ (by decide),
      lookupKV_setdefault_ne "questions_to_ask" "citations" _ _ (by decide),
      lookupKV_setdefault_self,
      lookupKV_setdefault_ne "questions_to_ask" "cons" _ _ (by decide),
      lookupKV_setdefault_ne "questions_to_ask" "pros" _ _ (by decide)]
  · rw [finalizeAdvisory_eq,
      lookupKV_setdefault_ne "citations" "summary" _ _ (by decide),
      lookupKV_setdefault_ne "citations" "info_completeness" _ _ (by decide),
      lookupKV_setdefault_ne "citations" "mechanical_risk" _ _ (by decide),
      lookupKV_setdefault_ne "citations" "price_assessment" _ _ (by decide),
      lookupKV_setdefault_self,
      lookupKV_setdefault_ne "citations" "questions_to_ask" _ _ (by decide),
      lookupKV_setdefault_ne "citations" "cons" _ _ (by decide),
      lookupKV_setdefault_ne "citations" "pros" _ _ (by decide)]
  · rw [finalizeAdvisory_eq,
      lookupKV_setdefault_ne "price_assessment" "summary" _ _ (by decide),
      lookupKV_setdefault_ne "price_assessment" "info_completeness" _ _ (by decide),
      lookupKV_setdefault_ne "price_assessment" "mechanical_risk" _ _ (by decide),
      lookupKV_setdefault_self,
      lookupKV_setdefault_ne "price_assessment" "citations" _ _ (by decide),
      lookupKV_setdefault_ne "price_assessment" "questions_to_ask" _ _ (by decide),
      lookupKV_setdefault_ne "price_assessment" "cons" _ _ (by decide),
      lookupKV_setdefault_ne "price_assessment" "pros" _ _ (by decide)]
  · rw [finalizeAdvisory_eq,
      lookupKV_setdefault_ne "mechanical_risk" "summary" _ _ (by decide),
      lookupKV_setdefault_ne "mechanical_risk" "info_completeness" _ _ (by decide),
      lookupKV_setdefault_self,
      lookupKV_setdefault_ne "mechanical_risk" "price_assessment" _ _ (by decide),
      lookupKV_setdefault_ne "mechanical_risk" "citations" _ _ (by decide),
      lookupKV_setdefault_ne "mechanical_risk" "questions_to_ask" _ _ (by decide),
      lookupKV_setdefault_ne "mechanical_risk" "cons" _ _ (by decide),
      lookupKV_setdefault_ne "mechanical_risk" "pros" _ _ (by decide)]
  · rw [finalizeAdvisory_eq,
      lookupKV_setdefault_ne "info_completeness" "summary" _ _ (by decide),
      lookupKV_setdefault_self,
      lookupKV_setdefault_ne "info_completeness" "mechanical_risk" _ _ (by decide),
      lookupKV_setdefault_ne "info_completeness" "price_assessment" _ _ (by decide),
      lookupKV_setdefault_ne "info_completeness" "citations" _ _ (by decide),
      lookupKV_setdefault_ne "info_completeness" "questions_to_ask" _ _ (by decide),
      lookupKV_setdefault_ne "info_completeness" "cons" _ _ (by decide),
      lookupKV_setdefault_ne "info_completeness" "pros" _ _ (by decide)]
  · rw [finalizeAdvisory_eq,
      lookupKV_setdefault_self,
      lookupKV_setdefault_ne "summary" "info_completeness" _ _ (by decide),
      lookupKV_setdefault_ne "summary" "mechanical_risk" _ _ (by decide),
      lookupKV_setdefault_ne "summary" "price_assessment" _ _ (by decide),
      lookupKV_setdefault_ne "summary" "citations" _ _ (by decide),
      lookupKV_setdefault_ne "summary" "questions_to_ask" _ _ (by decide),
      lookupKV_setdefault_ne "summary" "cons" _ _ (by decide),
      lookupKV_setdefault_ne "summary" "pros" _ _ (by decide)]

/-!
## Claim C6 — numeric normalizer (corrected: int() raises on non-finite floats)
-/

/-- C6 counterexample: `_coerce_number(float("nan"))` reaches `int(x)` via the
`isinstance(x, (int, float))` branch, and `int()` on a NaN raises a
ValueError instead of returning an integer or None. -/
theorem c6_counterexample :
    coerce_number CoerceInput.vnan
      = Except.error "cannot convert float NaN to integer" := rfl

/-- C6 amended: for absent, textual, integer and finite-float inputs,
`_coerce_number` never raises and returns an integer or absent — ints pass
through, finite floats truncate toward zero, and a textual input keeps
exactly its digit characters (the `[€\s,kmKM]` pass removes no digit),
yielding absent when no digit remains; but the non-finite floats raise. -/
theorem c6_coerce_number_total :
    coerce_number .vnone = .ok none
    ∧ (∀ i : Int, coerce_number (.vint i) = .ok (some i))
    ∧ (∀ q : Rat, coerce_number (.vfloat q) = .ok (some (ratTrunc q)))
    ∧ (∀ s : String,
        coerce_number (.vstr s)
          = .ok (if (s.toList.filter Char.isDigit).isEmpty then none
              else some (Int.ofNat (digitsToNat (s.toList.filter Char.isDigit)))))
    ∧ coerce_number (.vstr "98 000 km") = .ok (some 98000)
    ∧ coerce_number (.vstr "11 500€") = .ok (some 11500)
    ∧ coerce_number (.vstr "") = .ok none
    ∧ coerce_number (.vstr "11.500") = .ok (some 11500)
    ∧ coerce_number (.vstr "11,500") = .ok (some 11500)
    ∧ coerce_number (.vint 12345) = .ok (some 12345) := by
  refine ⟨rfl, fun i => rfl, fun q => rfl, fun s => ?_, rfl, rfl, rfl, rfl, rfl, rfl⟩
  have h : coerce_number (.vstr s)
      = .ok (if ((s.toList.filter (fun c => !isCurrencyNoise c)).filter Char.isDigit).isEmpty
          then none
          else some (Int.ofNat (digitsToNat
            ((s.toList.filter (fun c => !isCurrencyNoise c)).filter Char.isDigit)))) := rfl
  rw [h, filter_noise_then_digits]

/-!
## Claim C9 — year-range parsing (corrected: any int() success, not only
4-digit-or-more)
-/

/-- C9 counterexample: a three-digit string is not empty, not of the
`YYYY-YYYY` shape, and not a 4-digit-or-more integer, yet `int("999")`
succeeds, so the parser returns the degenerate range rather than the
claimed (absent, absent). -/
theorem c9_counterexample :
    parse_year_range "999" = (some 999, some 999)
    ∧ parse_year_range "999" ≠ (none, none) := by decide

/-- C9 amended: empty input gives (absent, absent); the exact `YYYY-YYYY`
shape (hyphen or en-dash, optional whitespace) gives the two integers in
order; otherwise any string `int()` accepts — any digit count, optional
sign, underscore group separators — gives the degenerate range, and
everything else gives (absent, absent) rather than an error; the two
components are always both present or both absent. -/
theorem c9_year_range_shapes :
    parse_year_range "" = (none, none)
    ∧ parse_year_range "2013-2019" = (some 2013, some 2019)
    ∧ parse_year_range " 2013 – 2019 " = (some 2013, some 2019)
    ∧ parse_year_range "2015" = (some 2015, some 2015)
    ∧ parse_year_range "999" = (some 999, some 999)
    ∧ parse_year_range "-5" = (some (-5), some (-5))
    ∧ parse_year_range "1_000" = (some 1000, some 1000)
    ∧ parse_year_range "abc" = (none, none)
    ∧ parse_year_range "20133-2019" = (none, none)
    ∧ parse_year_range "2013-2019 x" = (none, none)
    ∧ (∀ r : String, (∃ a b, parse_year_range r = (some a, some b))
        ∨ parse_year_range r = (none, none)) := by
  refine ⟨by decide, by decide, by decide, by decide, by decide, by decide,
    by decide, by decide, by decide, by decide, ?_⟩
  intro r
  unfold parse_year_range
  by_cases h : r = ""
  · rw [if_pos h]; exact Or.inr rfl
  · rw [if_neg h]
    cases hs : yearShape r.toList with
    | some ab =>
        rcases ab with ⟨a, b⟩
        exact Or.inl ⟨a, b, rfl⟩
    | none =>
        cases hi : pyIntOfString (stripStr r) with
        | some y => exact Or.inl ⟨y, y, rfl⟩
        | none => exact Or.inr rfl

/-!
## Claim C1 — resilient JSON extraction
-/

/-- `extract_json` with its `let` unfolded. -/
theorem extract_json_eq (t : String) :
    extract_json t
      = match jsonLoads (preParseText t) with
        | some v => .ok v
        | none =>
            match braceSpan (preParseText t) with
            | some s =>
                match jsonLoads s with
                | some v => .ok v
                | none => .error (.decodeError (String.mk s))
            | none => .error (.valueError noJsonMsg) := rfl

/-- C1: `_extract_json` strips the text, unwraps a fenced block when the
fence regex matches, and returns the first success among the strict parse of
the (possibly unwrapped) text and the strict parse of the
first-brace-to-last-brace span; in particular a fenced block wrapping
a one-field object yields that object, and prose around the object yields
the object. -/
theorem c1_extract_json_recovery :
    (∀ t v, jsonLoads (preParseText t) = some v → extract_json t = .ok v)
    ∧ (∀ t s v, jsonLoads (preParseText t) = none →
        braceSpan (preParseText t) = some s → jsonLoads s = some v →
          extract_json t = .ok v)
    ∧ extract_json "```json\n\x7b\x22a\x22:1\x7d\n```"
        = .ok (Json.obj [("a", Json.int 1)])
    ∧ extract_json "noise \x7b\x22a\x22:1\x7d trailing"
        = .ok (Json.obj [("a", Json.int 1)]) := by
  refine ⟨?_, ?_, rfl, rfl⟩
  · intro t v h
    rw [extract_json_eq, h]
  · intro t s v h hs hv
    simp only [extract_json_eq, h, hs, hv]

/-- Witness for C1 at concrete inputs, one per recovery tier. -/
theorem c1_extract_json_recovery_witness :
    extract_json " \x7b\x22a\x22: 2\x7d " = .ok (Json.obj [("a", Json.int 2)])
    ∧ extract_json "x \x7b\x22b\x22:3\x7d y" = .ok (Json.obj [("b", Json.int 3)]) := by
  constructor
  · exact c1_extract_json_recovery.1 " \x7b\x22a\x22: 2\x7d " _ (by rfl)
  · exact c1_extract_json_recovery.2.1 "x \x7b\x22b\x22:3\x7d y" _ _
      (by rfl) (by rfl) (by rfl)

/-!
## Claim C4 — failure path (corrected: the error does not carry the
original input text)
-/

/-- C4 counterexample: on an input with no recoverable object and no brace
span, `_extract_json` raises the explicit
`ValueError("Could not parse JSON from model output.")` — a fixed message in
which the original input text does not occur. -/
theorem c4_counterexample :
    extract_json "not json at all" = .error (.valueError noJsonMsg)
    ∧ listContains "not json at all".toList noJsonMsg.toList = false := by
  exact ⟨rfl, by decide⟩

/-- C4 amended: whenever both the direct strict parse and the brace-span
parse fail to recover an object, `_extract_json` fails with a ValueError
(ParseError) and nothing else — the fixed-message ValueError when no brace
span exists, and the decode error carrying the failing span (not the
original input) when a span exists but fails its strict parse. -/
theorem c4_parse_error_paths (t : String)
    (h : jsonLoads (preParseText t) = none) :
    (∀ s, braceSpan (preParseText t) = some s → jsonLoads s = none →
      extract_json t = .error (.decodeError (String.mk s)))
    ∧ (braceSpan (preParseText t) = none →
      extract_json t = .error (.valueError noJsonMsg)) := by
  constructor
  · intro s hs hv
    simp only [extract_json_eq, h, hs, hv]
  · intro hb
    simp only [extract_json_eq, h, hb]

/-- Witness for C4 (amended) at concrete inputs, one per failure path. -/
theorem c4_parse_error_paths_witness :
    extract_json "aa \x7bnot json\x7d bb" = .error (.decodeError "\x7bnot json\x7d")
    ∧ extract_json "no braces here" = .error (.valueError noJsonMsg) := by
  constructor
  · exact (c4_parse_error_paths "aa \x7bnot json\x7d bb" (by rfl)).1 _ (by rfl) (by rfl)
  · exact (c4_parse_error_paths "no braces here" (by rfl)).2 (by rfl)

/-!
## Claims C7 and C8 — the canonical listing record
-/

/-- `buildListing` unfolded into the three fallible coercions followed by the
record. -/
theorem buildListing_eq (a nw : String) (d : List (String × Json)) :
    buildListing a nw d
      = match coerce_number (toCoerce (pyGet d "year")) with
        | .error e => .error e
        | .ok year =>
            match coerce_number (toCoerce (pyGet d "mileage_km")) with
            | .error e => .error e
            | .ok mileage =>
                match coerce_number (toCoerce (pyGet d "price_eur")) with
                | .error e => .error e
                | .ok price =>
                    .ok
                      { brand :=
                          if pyTruthy (pyGet d "brand") then
                            some (stripStr (pyTitle (pyStr (pyGet d "brand"))))
                          else none
                        model :=
                          if pyTruthy (pyGet d "model") then
                            some (stripStr (pyStr (pyGet d "model")))
                          else none
                        year := year
                        mileage_km := mileage
                        price_eur := price
                        fuel := pyGet d "fuel"
                        transmission := pyGet d "transmission"
                        trim := pyGet d "trim"
                        options :=
                          if pyTruthy (pyGet d "options") then pyGet d "options"
                          else .arr []
                        service_history := pyGet d "service_history"
                        known_issues :=
                          if pyTruthy (pyGet d "known_issues") then pyGet d "known_issues"
                          else .arr []
                        seller_notes := pyGet d "seller_notes"
                        text :=
                          if pyTruthy (pyGet d "text") then pyGet d "text"
                          else .str a
                        created_at := nw ++ "Z" } := by
  unfold buildListing
  cases coerce_number (toCoerce (pyGet d "year")) <;>
    cases coerce_number (toCoerce (pyGet d "mileage_km")) <;>
      cases coerce_number (toCoerce (pyGet d "price_eur")) <;> rfl

/-- What a successful `buildListing` pins down about the returned record. -/
theorem buildListing_fields (a nw : String) (d : List (String × Json))
    (r : ListingOut) (h : buildListing a nw d = .ok r) :
    coerce_number (toCoerce (pyGet d "year")) = .ok r.year
    ∧ coerce_number (toCoerce (pyGet d "mileage_km")) = .ok r.mileage_km
    ∧ coerce_number (toCoerce (pyGet d "price_eur")) = .ok r.price_eur
    ∧ r.text = (if pyTruthy (pyGet d "text") then pyGet d "text" else .str a)
    ∧ r.options = (if pyTruthy (pyGet d "options") then pyGet d "options" else .arr [])
    ∧ r.known_issues
        = (if pyTruthy (pyGet d "known_issues") then pyGet d "known_issues"
            else .arr []) := by
  rw [buildListing_eq] at h
  split at h
  next e heq => exact Except.noConfusion h
  next year heq =>
    split at h
    next e heq2 => exact Except.noConfusion h
    next mileage heq2 =>
      split at h
      next e heq3 => exact Except.noConfusion h
      next price heq3 =>
        cases h
        exact ⟨heq, heq2, heq3, rfl, rfl, rfl⟩

/-- `_coerce_number` on a string yields a non-negative integer when it yields
one at all (the digit concatenation is a natural number). -/
theorem coerce_vstr_nonneg (s : String) (n : Int)
    (h : coerce_number (.vstr s) = .ok (some n)) : 0 ≤ n := by
  have he : coerce_number (.vstr s)
      = .ok (if ((s.toList.filter (fun c => !isCurrencyNoise c)).filter Char.isDigit).isEmpty
          then none
          else some (Int.ofNat (digitsToNat
            ((s.toList.filter (fun c => !isCurrencyNoise c)).filter Char.isDigit)))) := rfl
  rw [he] at h
  split at h
  · simp at h
  · simp only [Except.ok.injEq, Option.some.injEq] at h
    exact h ▸ Int.ofNat_nonneg _

/-- A value that is not itself a JSON number coerces, when it coerces at all,
to a non-negative integer: `None` gives absent, a bool gives 0 or 1, and
everything else runs through `str(x)` and the digit filter. -/
theorem coerce_toCoerce_nonneg_unless_num (v : Json) (n : Int)
    (h : coerce_number (toCoerce v) = .ok (some n)) :
    0 ≤ n ∨ (∃ i, v = Json.int i) ∨ (∃ m e, v = Json.float m e) := by
  cases v with
  | null => exact absurd h (by simp [toCoerce, coerce_number])
  | int i => exact Or.inr (Or.inl ⟨i, rfl⟩)
  | float m e => exact Or.inr (Or.inr ⟨m, e, rfl⟩)
  | nan => exact absurd h (by simp [toCoerce, coerce_number])
  | inf b => exact absurd h (by simp [toCoerce, coerce_number])
  | bool b =>
      left
      cases b <;> simp [toCoerce, coerce_number] at h <;> omega
  | str s => exact Or.inl (coerce_vstr_nonneg s n (by simpa [toCoerce] using h))
  | arr xs => exact Or.inl (coerce_vstr_nonneg _ n (by simpa [toCoerce] using h))
  | obj kvs => exact Or.inl (coerce_vstr_nonneg _ n (by simpa [toCoerce] using h))

/-- C7 counterexample: a parsed response carrying `year: -5` (a JSON number)
passes `_coerce_number` unchanged, so the record's numeric field is a
negative integer, not a valid non-negative integer or absent. -/
theorem c7_counterexample :
    (buildListing "ad" "T" [("year", Json.int (-5))]).map (fun r => r.year)
      = .ok (some (-5))
    ∧ (-5 : Int) < 0 := by
  exact ⟨rfl, by decide⟩

/-- C7 amended: each numeric field of the record is exactly what
`_coerce_number` returned for the corresponding response value — an integer
or absent, never a string — and is non-negative whenever that response value
is not itself a JSON number; a negative JSON number, however, passes through
as a negative integer. -/
theorem c7_numeric_fields (a nw : String) (d : List (String × Json))
    (r : ListingOut) (h : buildListing a nw d = .ok r) :
    coerce_number (toCoerce (pyGet d "year")) = .ok r.year
    ∧ coerce_number (toCoerce (pyGet d "mileage_km")) = .ok r.mileage_km
    ∧ coerce_number (toCoerce (pyGet d "price_eur")) = .ok r.price_eur
    ∧ (∀ n, r.year = some n →
        0 ≤ n ∨ (∃ i, pyGet d "year" = Json.int i)
          ∨ (∃ m e, pyGet d "year" = Json.float m e))
    ∧ (∀ n, r.mileage_km = some n →
        0 ≤ n ∨ (∃ i, pyGet d "mileage_km" = Json.int i)
          ∨ (∃ m e, pyGet d "mileage_km" = Json.float m e))
    ∧ (∀ n, r.price_eur = some n →
        0 ≤ n ∨ (∃ i, pyGet d "price_eur" = Json.int i)
          ∨ (∃ m e, pyGet d "price_eur" = Json.float m e)) := by
  obtain ⟨hy, hm, hp, -, -, -⟩ := buildListing_fields a nw d r h
  refine ⟨hy, hm, hp, ?_, ?_, ?_⟩
  · intro n hn
    exact coerce_toCoerce_nonneg_unless_num _ n (hn ▸ hy)
  · intro n hn
    exact coerce_toCoerce_nonneg_unless_num _ n (hn ▸ hm)
  · intro n hn
    exact coerce_toCoerce_nonneg_unless_num _ n (hn ▸ hp)

/-- Witness for C7 (amended): a textual `year` of `"-2016"` loses its sign to
the digit filter and lands as the non-negative 2016. -/
theorem c7_numeric_fields_witness :
    coerce_number (toCoerce (pyGet [("year", Json.str "-2016")] "year"))
      = .ok (some 2016)
    ∧ (0 ≤ (2016 : Int)
        ∨ (∃ i, pyGet [("year", Json.str "-2016")] "year" = Json.int i)
        ∨ (∃ m e, pyGet [("year", Json.str "-2016")] "year" = Json.float m e)) := by
  constructor
  · exact (c7_numeric_fields "ad" "T" [("year", Json.str "-2016")]
      ⟨none, none, some 2016, none, none, .null, .null, .null, .arr [], .null,
        .arr [], .null, .str "ad", "TZ"⟩ (by rfl)).1
  · exact (c7_numeric_fields "ad" "T" [("year", Json.str "-2016")]
      ⟨none, none, some 2016, none, none, .null, .null, .null, .arr [], .null,
        .arr [], .null, .str "ad", "TZ"⟩ (by rfl)).2.2.2.1 2016 rfl

/-- C8: the record's `text` equals the original ad text whenever the response
omits `text` (missing key or JSON null) or supplies an empty string; `text`
is never the empty string when the ad text is non-empty; and the list-valued
fields default to empty sequences when absent from the response. -/
theorem c8_text_fallback (a nw : String) (d : List (String × Json))
    (r : ListingOut) (h : buildListing a nw d = .ok r) :
    ((lookupKV "text" d = none ∨ lookupKV "text" d = some (Json.str "")) →
      r.text = Json.str a)
    ∧ (a ≠ "" → r.text ≠ Json.str "")
    ∧ (lookupKV "options" d = none → r.options = Json.arr [])
    ∧ (lookupKV "known_issues" d = none → r.known_issues = Json.arr []) := by
  obtain ⟨-, -, -, ht, hopt, hki⟩ := buildListing_fields a nw d r h
  refine ⟨?_, ?_, ?_, ?_⟩
  · intro h1
    rcases h1 with h1 | h1 <;>
      rw [ht] <;> simp [pyGet, h1, pyTruthy]
  · intro ha heq
    rw [ht] at heq
    by_cases htr : pyTruthy (pyGet d "text")
    · rw [if_pos htr] at heq
      rw [heq] at htr
      simp [pyTruthy] at htr
    · rw [if_neg htr] at heq
      exact ha (by injection heq)
  · intro h1
    rw [hopt]
    simp [pyGet, h1, pyTruthy]
  · intro h1
    rw [hki]
    simp [pyGet, h1, pyTruthy]

/-- Witness for C8: a response with only a `year` field, against the ad text
`"hello"`. -/
theorem c8_text_fallback_witness :
    (⟨none, none, some 2016, none, none, .null, .null, .null, .arr [], .null,
        .arr [], .null, .str "hello", "TZ"⟩ : ListingOut).text = Json.str "hello"
    ∧ (⟨none, none, some 2016, none, none, .null, .null, .null, .arr [], .null,
        .arr [], .null, .str "hello", "TZ"⟩ : ListingOut).text ≠ Json.str ""
    ∧ (⟨none, none, some 2016, none, none, .null, .null, .null, .arr [], .null,
        .arr [], .null, .str "hello", "TZ"⟩ : ListingOut).options = Json.arr [] := by
  refine ⟨?_, ?_, ?_⟩
  · exact (c8_text_fallback "hello" "T" [("year", Json.int 2016)] _ (by rfl)).1
      (Or.inl (by rfl))
  · exact (c8_text_fallback "hello" "T" [("year", Json.int 2016)] _ (by rfl)).2.1
      (by decide)
  · exact (c8_text_fallback "hello" "T" [("year", Json.int 2016)] _ (by rfl)).2.2.1
      (by rfl)

end AutoAdvisor
